import Mathlib

/-!
Verification development for the fleetx FreeScout integration:
the worker job processor (`getClient`, `Run`, templates) and the
external-service client (`NewFreeScoutClient`, `FreeScoutConfigMatches`,
`CreateFreeScoutConversation`).

Go machine integers (`int64`, `uint`) are modelled as `Int`/`Nat`; none of
the verified properties involve overflow. HTTP transport, JSON decoding and
the datastore are modelled as explicit oracles (pure functions supplied as
arguments), mirroring how the Go code receives them as interfaces.
-/

namespace FleetX

/-- Decidable equality for `Except` values with decidable components, used to
evaluate the embedded fallible operations on concrete inputs. -/
instance {ε α : Type} [DecidableEq ε] [DecidableEq α] : DecidableEq (Except ε α)
  | .ok a, .ok b => decidable_of_iff (a = b) (by simp)
  | .error a, .error b => decidable_of_iff (a = b) (by simp)
  | .ok _, .error _ => isFalse (by simp)
  | .error _, .ok _ => isFalse (by simp)

/-- `FreeScoutOptions` defines the options to configure a FreeScout client
(externalsvc/freescout.go). Go `int64` fields are modelled as `Int`. -/
structure FreeScoutOptions where
  URL : String
  APIToken : String
  MailboxID : Int
  CustomerEmail : String
  AssignTo : Int
deriving DecidableEq, Repr

/-- The FreeScout client (externalsvc/freescout.go `FreeScout`). The Go struct
also carries an `*http.Client` handle; it is omitted here because it is a
runtime transport resource, never compared or branched on (the transport is
passed explicitly to the request functions below). -/
structure FreeScout where
  opts : FreeScoutOptions
deriving DecidableEq, Repr

/-- Result of URL parsing: the components of `net/url.URL` that
`NewFreeScoutClient` inspects. The scheme is kept in its original case
(Go lowercases it; only emptiness is inspected downstream) and the host is
kept percent-encoded (Go decodes validated escapes; decoding never turns a
nonempty host empty, and only emptiness is inspected downstream). -/
structure GoURL where
  scheme : String
  host : String
deriving DecidableEq, Repr

/-! The following functions model `net/url.Parse`, including its error
returns, to the fidelity `NewFreeScoutClient` observes: which URLs parse at
all, and the emptiness of the resulting scheme and host. All of `Parse`'s
rejection rules along this path are reproduced: control characters in the
pre-fragment part, a leading `:` (missing protocol scheme), a colon in the
first path segment of scheme-less rootless URLs, invalid userinfo
characters, a `[` host without `]`, invalid ports after the host, host
bytes that `shouldEscape(encodeHost)` rejects, malformed or host-forbidden
percent escapes (including the `%25`/zone rules of RFC 6874 for bracketed
hosts), and malformed percent escapes in the path and fragment. Per Go, the
query part and opaque (rootless, schemeful) URLs are not validated, and
control characters in the fragment are allowed. Error message texts are
abbreviated (Go interpolates the offending bytes; nothing compares message
contents). Byte-level checks become codepoint-level checks: the characters
they test for are ASCII, and every byte of a multi-byte UTF-8 character is
at least 0x80, which the byte rules always allow where the codepoint rules
do. -/

/-- A control byte per `stringContainsCTLByte`: below 0x20, or DEL. -/
def isCtlByte (c : Char) : Bool :=
  decide (c.toNat < 32) || decide (c.toNat = 127)

/-- Hexadecimal digit test (`ishex`). -/
def isHexDigit (c : Char) : Bool :=
  c.isDigit || (decide (97 ≤ c.toNat) && decide (c.toNat ≤ 102))
    || (decide (65 ≤ c.toNat) && decide (c.toNat ≤ 70))

/-- Value of a hexadecimal digit (`unhex`). -/
def hexDigitVal (c : Char) : Nat :=
  if c.isDigit then c.toNat - 48
  else if decide (97 ≤ c.toNat) then c.toNat - 87
  else c.toNat - 55

/-- ASCII bytes that need no escaping in a host (`shouldEscape(c,
encodeHost) = false`): alphanumerics, the marks `-_.~`, and the sub-delims
plus `:[]<>"` that `encodeHost` additionally allows. -/
def allowedHostByte (v : Nat) : Bool :=
  (decide (48 ≤ v) && decide (v ≤ 57)) || (decide (65 ≤ v) && decide (v ≤ 90))
    || (decide (97 ≤ v) && decide (v ≤ 122))
    || [33, 34, 36, 38, 39, 40, 41, 42, 43, 44, 45, 46, 58, 59, 60, 61, 62, 91, 93, 95,
        126].contains v

/-- Characters `validUserinfo` accepts: alphanumerics and
`- . _ : ~ ! $ & ' ( ) * + , ; = % @` (non-ASCII is rejected). -/
def validUserinfoChar (c : Char) : Bool :=
  c.isAlpha || c.isDigit
    || [45, 46, 95, 58, 126, 33, 36, 38, 39, 40, 41, 42, 43, 44, 59, 61, 37, 64].contains c.toNat

/-- Split at the first occurrence of `sep`: the part before it, and (when
present) the part after it, the separator removed (`strings.Cut`). -/
def splitAtFirst (sep : Char) : List Char → List Char × Option (List Char)
  | [] => ([], none)
  | c :: rest =>
    if c = sep then ([], some rest)
    else
      let (pre, post) := splitAtFirst sep rest
      (c :: pre, post)

/-- Split at the last occurrence of `sep` (`strings.LastIndex`): parts
before and after it, or `none` when absent. -/
def splitAtLast (sep : Char) (cs : List Char) : Option (List Char × List Char) :=
  match splitAtFirst sep cs.reverse with
  | (_, none) => none
  | (revAfter, some revBefore) => some (revBefore.reverse, revAfter.reverse)

/-- `validOptionalPort`: empty, or `:` followed by decimal digits only. -/
def validOptionalPort : List Char → Bool
  | [] => true
  | ':' :: rest => rest.all (·.isDigit)
  | _ => false

/-- Percent escapes are well-formed: every `%` is followed by two hex digits
(the only check `unescape` performs for the path, fragment and userinfo
modes). -/
def validEscapes : List Char → Bool
  | [] => true
  | '%' :: a :: b :: rest => isHexDigit a && isHexDigit b && validEscapes rest
  | '%' :: _ => false
  | _ :: rest => validEscapes rest

/-- `unescape(·, encodeHost)` succeeds: every plain byte is non-ASCII or
host-allowed, and every escape has valid hex with first digit at least 8
(only non-ASCII bytes may be host-escaped), except the literal `%25`. -/
def validHostChars : List Char → Bool
  | [] => true
  | '%' :: a :: b :: rest =>
    isHexDigit a && isHexDigit b && (decide (8 ≤ hexDigitVal a) || (a = '2' && b = '5'))
      && validHostChars rest
  | '%' :: _ => false
  | c :: rest => (decide (128 ≤ c.toNat) || allowedHostByte c.toNat) && validHostChars rest

/-- `unescape(·, encodeZone)` succeeds: like the host rules, but an escape
must be `%25`, decode to a space, or decode to a host-allowed ASCII byte. -/
def validZoneChars : List Char → Bool
  | [] => true
  | '%' :: a :: b :: rest =>
    isHexDigit a && isHexDigit b
      && ((a = '2' && b = '5') || decide (16 * hexDigitVal a + hexDigitVal b = 32)
          || allowedHostByte (16 * hexDigitVal a + hexDigitVal b))
      && validZoneChars rest
  | '%' :: _ => false
  | c :: rest => (decide (128 ≤ c.toNat) || allowedHostByte c.toNat) && validZoneChars rest

/-- Index of the first occurrence of the substring `%25`, if any
(`strings.Index(·, "%25")`). -/
def indexOfPct25 : List Char → Option Nat
  | '%' :: '2' :: '5' :: _ => some 0
  | [] => none
  | _ :: rest => (indexOfPct25 rest).map (· + 1)

/-- `getScheme`: scan for `alpha (alphanum | + | - | .)* :`. A leading `:`
is the `missing protocol scheme` error; a digit, `+`, `-` or `.` first, or
any other character anywhere, means no scheme and the whole input is the
remainder. `orig` is the untouched input, `acc` the scheme characters seen
so far, reversed. -/
def getSchemeAux (orig acc : List Char) : List Char → Except String (List Char × List Char)
  | [] => .ok ([], orig)
  | c :: rest =>
    if c.isAlpha then getSchemeAux orig (c :: acc) rest
    else if c.isDigit || c = '+' || c = '-' || c = '.' then
      if acc.isEmpty then .ok ([], orig) else getSchemeAux orig (c :: acc) rest
    else if c = ':' then
      if acc.isEmpty then .error "missing protocol scheme" else .ok (acc.reverse, rest)
    else .ok ([], orig)

/-- `parseHost`: a `[`-led host needs a `]` and a valid port after it, with
the RFC 6874 zone rules applied from the first `%25` inside the brackets;
otherwise a final `:` segment must be a valid port; in all cases the host
bytes must pass the `encodeHost` escaping rules. Returns the host as given
(Go returns it percent-decoded; only emptiness is inspected downstream). -/
def parseHostE (host : List Char) : Except String (List Char) :=
  match host with
  | '[' :: _ =>
    match splitAtLast ']' host with
    | none => .error "missing ']' in host"
    | some (beforeBr, afterBr) =>
      if !validOptionalPort afterBr then .error "invalid port after host"
      else
        match indexOfPct25 beforeBr with
        | some z =>
          if validHostChars (beforeBr.take z) && validZoneChars (beforeBr.drop z)
              && validHostChars (']' :: afterBr) then .ok host
          else .error "invalid character in host name"
        | none =>
          if validHostChars host then .ok host else .error "invalid character in host name"
  | _ =>
    match splitAtLast ':' host with
    | some (_, afterColon) =>
      if !validOptionalPort (':' :: afterColon) then .error "invalid port after host"
      else if validHostChars host then .ok host
      else .error "invalid character in host name"
    | none => if validHostChars host then .ok host else .error "invalid character in host name"

/-- `parseAuthority`: the host is everything after the last `@` (or the
whole authority); the userinfo before it must pass `validUserinfo` and have
well-formed escapes. -/
def parseAuthorityE (authority : List Char) : Except String (List Char) :=
  match splitAtLast '@' authority with
  | none => parseHostE authority
  | some (userinfo, hostStr) =>
    match parseHostE hostStr with
    | .error e => .error e
    | .ok host =>
      if !userinfo.all validUserinfoChar then .error "net/url: invalid userinfo"
      else if validEscapes userinfo then .ok host
      else .error "invalid URL escape"

/-- `parse(stripped, viaRequest = false)`: control-byte check, scheme
extraction, force-query/query split (the query is not validated), then
either an opaque URL (scheme-ful, rootless: accepted with empty host, no
further validation), a scheme-less rootless URL (colon check on the first
segment, then path escapes), or a rooted URL with an authority exactly when
it starts with `//` (a scheme-less `///` has no authority per Go). -/
def parseStripped (cs : List Char) : Except String GoURL :=
  if cs.any isCtlByte then .error "net/url: invalid control character in URL"
  else
    match getSchemeAux cs [] cs with
    | .error e => .error e
    | .ok (scheme, rest0) =>
      let rest :=
        if rest0.getLast? == some '?' && !(rest0.dropLast.contains '?') then rest0.dropLast
        else (splitAtFirst '?' rest0).1
      match rest with
      | '/' :: '/' :: afterSlashes =>
        if scheme.isEmpty && afterSlashes.head? == some '/' then
          if validEscapes rest then .ok ⟨String.mk scheme, ""⟩
          else .error "invalid URL escape"
        else
          let (authority, pathTail) := splitAtFirst '/' afterSlashes
          let path := match pathTail with
            | none => ([] : List Char)
            | some p => '/' :: p
          match parseAuthorityE authority with
          | .error e => .error e
          | .ok host =>
            if validEscapes path then .ok ⟨String.mk scheme, String.mk host⟩
            else .error "invalid URL escape"
      | '/' :: _ =>
        if validEscapes rest then .ok ⟨String.mk scheme, ""⟩
        else .error "invalid URL escape"
      | _ =>
        if !scheme.isEmpty then .ok ⟨String.mk scheme, ""⟩
        else if ((splitAtFirst '/' rest).1).contains ':' then
          .error "first path segment in URL cannot contain colon"
        else if validEscapes rest then .ok ⟨String.mk scheme, ""⟩
        else .error "invalid URL escape"

/-- `net/url.Parse`: cut the fragment at the first `#`, parse the rest, and
validate the fragment's percent escapes (a control character in the
fragment is, per Go, not an error — the control-byte check sees only the
pre-fragment part). -/
def parseURLE (s : String) : Except String GoURL :=
  let (stripped, frag) := splitAtFirst '#' s.toList
  match parseStripped stripped with
  | .error e => .error e
  | .ok u =>
    match frag with
    | none => .ok u
    | some f =>
      if f.isEmpty then .ok u
      else if validEscapes f then .ok u
      else .error "invalid URL escape"

/-- Models `strings.TrimRight(s, "/")`: drop trailing `/` characters. -/
def trimRightSlashes (s : String) : String :=
  String.mk ((s.toList.reverse.dropWhile (· == '/')).reverse)

/-- The options actually stored in a constructed client: the input options
with the URL right-trimmed of `/` (freescout.go lines 49–50). -/
def cleanedFreeScoutOptions (o : FreeScoutOptions) : FreeScoutOptions :=
  { o with URL := trimRightSlashes o.URL }

/-- `NewFreeScoutClient` (freescout.go lines 34–56): rejects missing options
(`nil` modelled as `none`), an empty URL, URL parse failures (the error is
surfaced as-is), and parsed URLs without scheme or host; on success stores
the options with the URL right-trimmed of `/`. -/
def NewFreeScoutClient (opts : Option FreeScoutOptions) : Except String FreeScout :=
  match opts with
  | none => .error "missing FreeScout options"
  | some o =>
    if o.URL = "" then .error "missing FreeScout URL"
    else
      match parseURLE o.URL with
      | .error e => .error e
      | .ok parsed =>
        if parsed.scheme = "" ∨ parsed.host = "" then .error "invalid FreeScout URL"
        else .ok { opts := cleanedFreeScoutOptions o }

/-- `FreeScoutConfigMatches` (freescout.go lines 141–144): Go struct equality
between the stored options and the supplied options. -/
def FreeScoutConfigMatches (f : FreeScout) (opts : FreeScoutOptions) : Bool :=
  f.opts == opts

/-- A URL accepted by `NewFreeScoutClient`: nonempty, and `url.Parse`
succeeds on it with a nonempty scheme and a nonempty host. -/
def validFreeScoutURL (s : String) : Prop :=
  s ≠ "" ∧ ∃ u, parseURLE s = .ok u ∧ u.scheme ≠ "" ∧ u.host ≠ ""

example : NewFreeScoutClient (some ⟨"https://example.com/", "t", 1, "a@b.c", 0⟩)
    = .ok ⟨⟨"https://example.com", "t", 1, "a@b.c", 0⟩⟩ := by decide

example : NewFreeScoutClient (some ⟨"example.com", "t", 1, "a@b.c", 0⟩)
    = .error "invalid FreeScout URL" := by decide

example : NewFreeScoutClient (some ⟨"https://", "t", 1, "a@b.c", 0⟩)
    = .error "invalid FreeScout URL" := by decide

example : NewFreeScoutClient (some ⟨"https://example.com:bad", "t", 1, "a@b.c", 0⟩)
    = .error "invalid port after host" := by decide

example : NewFreeScoutClient (some ⟨"https://ex ample.com", "t", 1, "a@b.c", 0⟩)
    = .error "invalid character in host name" := by decide

example : NewFreeScoutClient (some ⟨"https://example.com/\x01", "t", 1, "a@b.c", 0⟩)
    = .error "net/url: invalid control character in URL" := by decide

example : NewFreeScoutClient (some ⟨"https://example.com/%zz", "t", 1, "a@b.c", 0⟩)
    = .error "invalid URL escape" := by decide

example : NewFreeScoutClient (some ⟨":nope", "t", 1, "a@b.c", 0⟩)
    = .error "missing protocol scheme" := by decide

example : NewFreeScoutClient (some ⟨"https://user@example.com:8080/x?a=b#frag", "t", 1, "a@b.c", 0⟩)
    = .ok ⟨⟨"https://user@example.com:8080/x?a=b#frag", "t", 1, "a@b.c", 0⟩⟩ := by decide

/-! ## The client cache (worker `getClient`, cache section, lines 195–219)

The Go map `clientsCache : map[string]FreeScoutClient` is modelled as an
association list without duplicate keys; inserting a key first removes any
prior binding, matching map-assignment semantics. The `nil`-map allocation
at entry (lines 198–200) is a no-op in this model (the empty list). -/

/-- The client cache: integration-type/team key to client. -/
abbrev ClientsCache : Type := List (String × FreeScout)

/-- Models Go `delete(m, key)`. -/
def cacheDelete (cache : ClientsCache) (key : String) : ClientsCache :=
  cache.filter fun p => !(p.1 == key)

/-- Models Go `m[key]` (missing key reads as the interface zero value `nil`,
modelled as `none`). -/
def cacheLookup : ClientsCache → String → Option FreeScout
  | [], _ => none
  | (k, v) :: rest, key => if k == key then some v else cacheLookup rest key

/-- Models Go `m[key] = v`. -/
def cacheStore (cache : ClientsCache) (key : String) (cli : FreeScout) : ClientsCache :=
  (key, cli) :: cacheDelete cache key

/-- The cache section of the worker's `getClient` (part_000 lines 195–219),
the code the mutex protects. Inputs: the client constructor (the worker's
`NewClientFunc` field), the cache, the key computed from the job, and the
options resolved from configuration (`none` when no integration is enabled).
Returns the call result (`ok none` = skip), the cache afterwards, and how
many times the constructor was invoked (0 or 1). -/
def getClientCached (newClientFunc : FreeScoutOptions → Except String FreeScout)
    (cache : ClientsCache) (key : String) (opts : Option FreeScoutOptions) :
    Except String (Option FreeScout) × ClientsCache × Nat :=
  match opts with
  | none =>
    -- no integration configured, clear any existing one
    (.ok none, cacheDelete cache key, 0)
  | some o =>
    -- check if the existing one can be reused
    match cacheLookup cache key with
    | some cli =>
      if FreeScoutConfigMatches cli o then (.ok (some cli), cache, 0)
      else
        match newClientFunc o with
        | .error e => (.error e, cache, 1)
        | .ok built => (.ok (some built), cacheStore cache key built, 1)
    | none =>
      match newClientFunc o with
      | .error e => (.error e, cache, 1)
      | .ok built => (.ok (some built), cacheStore cache key built, 1)

/-- The production constructor the worker is wired with: `NewClientFunc`
receives a non-nil options pointer and calls `NewFreeScoutClient`. -/
def newClientProd (o : FreeScoutOptions) : Except String FreeScout :=
  NewFreeScoutClient (some o)

/-! ## The FreeScout HTTP client operations (part_001)

HTTP is modelled as an oracle `FSRequest → FSResponse`; JSON decoding of the
search response (`freeScoutConversationsResponse`) as an oracle
`String → Except String (List Int)` yielding the embedded conversation ids.
Each operation also returns, in order, the requests it issued, so that
"does not issue a create request" is a statement about data. `json.Marshal`
of the payload structs and `http.NewRequestWithContext` cannot fail on the
values the code builds, so those error branches have no counterpart here;
response bodies stand for the already-trimmed text used in error messages. -/

/-- Query parameters of the search request built by
`findExistingConversationID` (part_001 lines 171–183). -/
structure SearchParams where
  embed : String
  mailboxId : String
  status : String
  state : String
  typ : String
  customerEmail : String
  subject : String
  sortField : String
  sortOrder : String
  page : String
  pageSize : String
deriving DecidableEq, Repr

/-- The search query for a subject (part_001 lines 171–183). -/
def searchParamsFor (opts : FreeScoutOptions) (subject : String) : SearchParams :=
  { embed := "threads"
    mailboxId := toString opts.MailboxID
    status := "active"
    state := "published"
    typ := "email"
    customerEmail := opts.CustomerEmail
    subject := subject
    sortField := "updatedAt"
    sortOrder := "asc"
    page := "1"
    pageSize := "1" }

/-- `freeScoutThread` (part_001 lines 62–66): a thread inside a new
conversation payload. The customer sub-object is modelled by its email. -/
structure FSThread where
  text : String
  typ : String
  customerEmail : Option String
deriving DecidableEq, Repr

/-- `freeScoutThreadPayload` (part_001 lines 68–74): body of a thread-append
request. -/
structure ThreadPayload where
  typ : String
  text : String
  customerEmail : String
  imported : Bool
  status : String
deriving DecidableEq, Repr

/-- `freeScoutConversationPayload` (part_001 lines 76–85): body of a
create-conversation request. -/
structure ConvPayload where
  typ : String
  mailboxId : Int
  subject : String
  customerEmail : String
  threads : List FSThread
  imported : Bool
  assignTo : Option Int
  status : String
deriving DecidableEq, Repr

/-- The three HTTP requests the client issues: `GET /api/conversations?...`,
`POST /api/conversations`, `POST /api/conversations/{id}/threads`. -/
inductive FSRequest where
  | search (params : SearchParams)
  | createConv (payload : ConvPayload)
  | createThread (conversationID : Int) (payload : ThreadPayload)
deriving DecidableEq, Repr

/-- Whether a request is the create-conversation POST. -/
def FSRequest.isCreateConv : FSRequest → Bool
  | .createConv _ => true
  | _ => false

/-- An HTTP response as the client reads it: status code, body text, and the
`Resource-ID` header (`Header.Get` returns `""` when absent). -/
structure FSResponse where
  status : Nat
  body : String
  resourceID : String
deriving DecidableEq, Repr

/-- The transport: what the FreeScout server answers to each request. -/
abbrev FSServer : Type := FSRequest → FSResponse

/-- The JSON decoder for the search response body: the ids of
`_embedded.conversations`, or a decode error. -/
abbrev FSDecoder : Type := String → Except String (List Int)

/-- The non-2xx error message (part_001 lines 154–157, 198–201, 242–245). -/
def httpFailMsg (resp : FSResponse) : String :=
  "freescout request failed: status " ++ toString resp.status ++ ": " ++ resp.body

/-- `findExistingConversationID` (part_001 lines 170–211): search for an
active published conversation with this exact subject in the configured
mailbox, sorted ascending by update time, page size 1; return the first
match's id, or 0 when there is none. -/
def FreeScout.findExistingConversationID (f : FreeScout) (server : FSServer)
    (decode : FSDecoder) (subject : String) : Except String Int × List FSRequest :=
  let q := searchParamsFor f.opts subject
  let resp := server (.search q)
  if resp.status / 100 ≠ 2 then (.error (httpFailMsg resp), [.search q])
  else
    match decode resp.body with
    | .error e => (.error e, [.search q])
    | .ok [] => (.ok 0, [.search q])
    | .ok (id :: _) => (.ok id, [.search q])

/-- The thread-append payload for a message (part_001 lines 214–222). -/
def threadPayloadFor (opts : FreeScoutOptions) (message : String) : ThreadPayload :=
  { typ := "customer"
    text := message
    customerEmail := opts.CustomerEmail
    imported := false
    status := "active" }

/-- `createFreeScoutThread` (part_001 lines 213–248): append a thread to an
existing conversation. -/
def FreeScout.createFreeScoutThread (f : FreeScout) (server : FSServer)
    (conversationID : Int) (message : String) : Except String Unit × List FSRequest :=
  let tp := threadPayloadFor f.opts message
  let resp := server (.createThread conversationID tp)
  if resp.status / 100 ≠ 2 then (.error (httpFailMsg resp), [.createThread conversationID tp])
  else (.ok (), [.createThread conversationID tp])

/-- The create-conversation payload (part_001 lines 111–133): one initial
customer thread carrying the message; assignee only when positive. -/
def convPayloadFor (opts : FreeScoutOptions) (subject message : String) : ConvPayload :=
  { typ := "email"
    mailboxId := opts.MailboxID
    subject := subject
    customerEmail := opts.CustomerEmail
    threads := [{ text := message, typ := "customer", customerEmail := some opts.CustomerEmail }]
    imported := false
    assignTo := if 0 < opts.AssignTo then some opts.AssignTo else none
    status := "active" }

/-- `CreateFreeScoutConversation` (part_001 lines 99–168): look up an existing
conversation by subject; when one is found (positive id), append a thread to
it and return its id; otherwise create a new conversation and return the id
parsed from the `Resource-ID` response header (absent or unparsable header
yields id 0, not an error). -/
def FreeScout.CreateFreeScoutConversation (f : FreeScout) (server : FSServer)
    (decode : FSDecoder) (subject message : String) : Except String Int × List FSRequest :=
  match f.findExistingConversationID server decode subject with
  | (.error e, reqs) => (.error e, reqs)
  | (.ok existingID, reqs) =>
    if 0 < existingID then
      match f.createFreeScoutThread server existingID message with
      | (.error e, treqs) => (.error e, reqs ++ treqs)
      | (.ok _, treqs) => (.ok existingID, reqs ++ treqs)
    else
      let payload := convPayloadFor f.opts subject message
      let resp := server (.createConv payload)
      if resp.status / 100 ≠ 2 then (.error (httpFailMsg resp), reqs ++ [.createConv payload])
      else if resp.resourceID = "" then (.ok 0, reqs ++ [.createConv payload])
      else
        match resp.resourceID.toInt? with
        | none => (.ok 0, reqs ++ [.createConv payload])
        | some id => (.ok id, reqs ++ [.createConv payload])

/-! ## Message templates (part_000 lines 24–92)

The four `text/template` programs in `freeScoutTemplates` are translated
action by action into string builders; every literal byte of the templates
(including the newlines surrounding actions, which Go keeps verbatim — no
trim markers are used) appears in the corresponding builder. Template
truthiness of the optional pointer fields is nil-ness, so `*float64` and
`*time.Time` fields are modelled as `Option String` carrying the text Go
printing would produce for the pointed-to value, `*bool` as `Option Bool`
(the template prints it through `deref` as Yes/No), and `*uint` as
`Option Nat`. -/

/-- `fleet.HostVulnerabilitySummary` as consumed by the vulnerability
description template: id, display name, installed paths. -/
structure HostVulnerabilitySummary where
  ID : Nat
  DisplayName : String
  SoftwareInstalledPaths : List String
deriving DecidableEq, Repr

/-- `freeScoutVulnTplArgs` (part_000 lines 94–105). -/
structure freeScoutVulnTplArgs where
  NVDURL : String
  FleetURL : String
  CVE : String
  Hosts : List HostVulnerabilitySummary
  EPSSProbability : Option String
  CVSSScore : Option String
  CISAKnownExploit : Option Bool
  CVEPublished : Option String
deriving DecidableEq, Repr

/-- The `VulnSummary` template: `Vulnerability {CVE} detected on
{len Hosts} host(s)` with the full host count. -/
def renderVulnSummary (a : freeScoutVulnTplArgs) : String :=
  "Vulnerability " ++ a.CVE ++ " detected on " ++ toString a.Hosts.length ++ " host(s)"

/-- One host entry of the `VulnDescription` range body (template lines 55–60):
a markdown link to the host followed by its installed paths. -/
def renderVulnHostEntry (fleetURL : String) (h : HostVulnerabilitySummary) : String :=
  "\n* [" ++ h.DisplayName ++ "](" ++ fleetURL ++ "/hosts/" ++ toString h.ID ++ ")\n"
    ++ String.join (h.SoftwareInstalledPaths.map fun p => "\n    * " ++ p ++ "\n")
    ++ "\n"

/-- The host-list section of `VulnDescription`: `$end` is the host count
capped at 50, and the range runs over `slice .Hosts 0 $end`, i.e. the first
`$end` hosts. -/
def renderVulnHostsSection (fleetURL : String) (hosts : List HostVulnerabilitySummary) : String :=
  let e := hosts.length
  let e := if e > 50 then 50 else e
  String.join ((hosts.take e).map (renderVulnHostEntry fleetURL))

/-- The `VulnDescription` template (part_000 lines 35–71), rendered. Optional
metadata paragraphs appear only when the corresponding pointer is non-nil. -/
def renderVulnDescription (a : freeScoutVulnTplArgs) : String :=
  "See vulnerability (CVE) details in National Vulnerability Database (NVD) here: ["
    ++ a.CVE ++ "](" ++ a.NVDURL ++ a.CVE ++ ").\n\n"
  ++ (match a.EPSSProbability with
      | some v =>
        "\nProbability of exploit (reported by [FIRST.org/epss](https://www.first.org/epss/)): "
          ++ v ++ "\n"
      | none => "")
  ++ "\n"
  ++ (match a.CVSSScore with
      | some v => "CVSS score (reported by [NVD](https://nvd.nist.gov/)): " ++ v ++ "\n"
      | none => "")
  ++ "\n"
  ++ (match a.CVEPublished with
      | some v => "Published (reported by [NVD](https://nvd.nist.gov/)): " ++ v ++ "\n"
      | none => "")
  ++ "\n"
  ++ (match a.CISAKnownExploit with
      | some b =>
        "Known exploits (reported by [CISA](https://www.cisa.gov/known-exploited-vulnerabilities-catalog)): "
          ++ (if b then "Yes" else "No") ++ "\n"
      | none => "")
  ++ "\n\nAffected hosts:\n\n\n"
  ++ renderVulnHostsSection a.FleetURL a.Hosts
  ++ "\n\nView the affected software and more affected hosts:\n\n1. Go to the [Software]("
  ++ a.FleetURL
  ++ "/software/manage) page in Fleet.\n2. Above the list of software, in the **Search software** box, enter \""
  ++ a.CVE
  ++ "\".\n3. Hover over the affected software and select **View all hosts**.\n\n----\n\nThis conversation was created automatically by your Fleet FreeScout integration.\n"

/-- A host as rendered by the failing-policy template: id and display name. -/
structure PolicyTplHost where
  ID : Nat
  DisplayName : String
deriving DecidableEq, Repr

/-- Arguments of the failing-policy template pair, as the templates consume
them: `PolicyID`, `PolicyName`, `PolicyCritical`, optional `TeamID`,
`FleetURL` and the host list. -/
structure failingPoliciesTplArgs where
  FleetURL : String
  PolicyID : Nat
  PolicyName : String
  PolicyCritical : Bool
  TeamID : Option Nat
  Hosts : List PolicyTplHost
deriving DecidableEq, Repr

/-- The `FailingPolicySummary` template: `{PolicyName} policy failed on
{len Hosts} host(s)` with the full host count. -/
def renderFailingPolicySummary (a : failingPoliciesTplArgs) : String :=
  a.PolicyName ++ " policy failed on " ++ toString a.Hosts.length ++ " host(s)"

/-- The host-list section of `FailingPolicyDescription`: the host count
capped at 50, ranging over `slice .Hosts 0 $end`. -/
def renderPolicyHostsSection (fleetURL : String) (hosts : List PolicyTplHost) : String :=
  let e := hosts.length
  let e := if e > 50 then 50 else e
  String.join ((hosts.take e).map fun h =>
    "\n* [" ++ h.DisplayName ++ "](" ++ fleetURL ++ "/hosts/" ++ toString h.ID ++ ")\n")

/-- The `FailingPolicyDescription` template (part_000 lines 77–91), rendered. -/
def renderFailingPolicyDescription (a : failingPoliciesTplArgs) : String :=
  (if a.PolicyCritical then "This policy is marked as **Critical** in Fleet.\n\n" else "")
  ++ "Hosts:\n\n"
  ++ renderPolicyHostsSection a.FleetURL a.Hosts
  ++ "\n\nView hosts that failed " ++ a.PolicyName ++ " on the [**Hosts**]("
  ++ a.FleetURL ++ "/hosts/manage/?order_key=hostname&order_direction=asc&"
  ++ (match a.TeamID with
      | some t => "team_id=" ++ toString t ++ "&"
      | none => "")
  ++ "policy_id=" ++ toString a.PolicyID
  ++ "&policy_response=failing) page in Fleet.\n\n----\n\nThis conversation was created automatically by your Fleet FreeScout integration.\n"

/-! ## The worker job processor (part_000)

Error wrapping (`ctxerr.Wrap(ctx, err, "label")`) is modelled as prefixing
the label; logging calls produce no observable effect and are dropped. The
datastore reads and the enabled-integration selection of `getClient` lines
147–193 (AppConfig / TeamLite / first enabled Freescout integration) are
collaborator behavior modelled as one oracle `resolveConfig`, keyed exactly
by what that block depends on: the integration type and the optional team
id; the cache section that follows it is `getClientCached` above. -/

/-- Integration-type tags; the cache-key comment in part_000 lines 124–125
(`"vuln:123"`, `"failingPolicy:"`) fixes their values. -/
def intgTypeVuln : String := "vuln"

/-- Integration-type tag of failing-policy jobs. -/
def intgTypeFailingPolicy : String := "failingPolicy"

/-- `vulnArgs` as used by part_000 lines 274–292 and the job payload shape of
the spec: CVE, affected software ids, and the optional CVE metadata, with
the pointer fields modelled as for the template arguments. -/
structure vulnArgs where
  CVE : String
  AffectedSoftwareIDs : List Nat
  EPSSProbability : Option String
  CVSSScore : Option String
  CISAKnownExploit : Option Bool
  CVEPublished : Option String
deriving DecidableEq, Repr

/-- A `fleet.PolicySetHost`: host id and hostname. -/
structure PolicySetHost where
  ID : Nat
  Hostname : String
deriving DecidableEq, Repr

/-- `failingPolicyArgs` as used by part_000 lines 412–418: policy id, name,
criticality, optional team and the failing hosts. -/
structure failingPolicyArgs where
  PolicyID : Nat
  PolicyName : String
  PolicyCritical : Bool
  TeamID : Option Nat
  Hosts : List PolicySetHost
deriving DecidableEq, Repr

/-- `freeScoutArgs` (part_000 lines 222–225): the job payload with two
optional sub-payloads, a JSON object `{"vulnerability": ...}` or
`{"failing_policy": ...}`. -/
structure freeScoutArgs where
  Vulnerability : Option vulnArgs
  FailingPolicy : Option failingPolicyArgs
deriving DecidableEq, Repr

/-- `integrationType` (part_000 lines 227–232): failing-policy when that
sub-payload is present, vulnerability otherwise. -/
def freeScoutArgs.integrationType (a : freeScoutArgs) : String :=
  if a.FailingPolicy.isNone then intgTypeVuln else intgTypeFailingPolicy

/-- Modelled from the spec: `newFailingPoliciesTplArgs` (defined outside the
excerpt) packages the Fleet URL and the failing-policy job arguments into
the failing-policy template arguments; each host contributes its id and its
hostname as display name. -/
def newFailingPoliciesTplArgs (fleetURL : String) (fp : failingPolicyArgs) :
    failingPoliciesTplArgs :=
  { FleetURL := fleetURL
    PolicyID := fp.PolicyID
    PolicyName := fp.PolicyName
    PolicyCritical := fp.PolicyCritical
    TeamID := fp.TeamID
    Hosts := fp.Hosts.map fun h => { ID := h.ID, DisplayName := h.Hostname } }

/-- Modelled from the spec: `nvdCVEURL` (a package constant outside the
excerpt), the NVD base URL prefixed to the CVE in the description template. -/
def nvdCVEURL : String := "https://nvd.nist.gov/vuln/detail/"

/-- The `FreeScout` worker (part_000 lines 114–127) with its collaborators:
the Fleet URL, the injected client constructor, the config resolution of
`getClient` lines 147–193 as an oracle (integration type and optional team
id to resolved options, `ok none` = integration disabled, errors =
datastore failures), the two host-lookup datastore methods, and the HTTP
transport and search-body decoder used by the client. The mutable
`clientsCache` is passed and returned explicitly. -/
structure FreeScoutWorker where
  FleetURL : String
  NewClientFunc : FreeScoutOptions → Except String FreeScout
  resolveConfig : String → Option Nat → Except String (Option FreeScoutOptions)
  hostsByCVE : String → Except String (List HostVulnerabilitySummary)
  hostVulnSummariesBySoftwareIDs : List Nat → Except String (List HostVulnerabilitySummary)
  server : FSServer
  decodeConversations : FSDecoder

/-- The cache key and team id computed by `getClient` (part_000 lines
136–145): `intgType ++ ":"`, extended with the team id for team-scoped
failing-policy jobs. -/
def getClientKey (a : freeScoutArgs) : String × Option Nat :=
  let intgType := a.integrationType
  let tid : Option Nat :=
    if intgType == intgTypeFailingPolicy then a.FailingPolicy.bind (·.TeamID) else none
  match tid with
  | some t => (intgType ++ ":" ++ toString t, some t)
  | none => (intgType ++ ":", none)

/-- `getClient` (part_000 lines 135–219): compute the key, resolve the
configuration, then run the cache section. Returns `ok none` when no
integration is enabled for the message. -/
def FreeScoutWorker.getClient (w : FreeScoutWorker) (cache : ClientsCache)
    (a : freeScoutArgs) : Except String (Option FreeScout) × ClientsCache × Nat :=
  let (key, tid) := getClientKey a
  match w.resolveConfig a.integrationType tid with
  | .error e => (.error e, cache, 0)
  | .ok opts => getClientCached w.NewClientFunc cache key opts

/-- `createTemplatedConversation` (part_000 lines 328–346) after template
execution: the two templates are rendered by the callers with the total
renderers above (execution of these templates on well-typed arguments
cannot fail), and the client call's error is wrapped. -/
def FreeScoutWorker.createTemplatedConversation (w : FreeScoutWorker) (cli : FreeScout)
    (summary description : String) : Except String Int :=
  match (cli.CreateFreeScoutConversation w.server w.decodeConversations summary description).1 with
  | .error e => .error ("create conversation: " ++ e)
  | .ok conversationID => .ok conversationID

/-- `runVuln` (part_000 lines 262–305): reject a missing vulnerability
sub-payload, fetch the affected hosts (by CVE when no software ids are
present, else by software ids), render the vulnerability templates and
create the conversation. The debug log of the created id is dropped. -/
def FreeScoutWorker.runVuln (w : FreeScoutWorker) (cli : FreeScout)
    (a : freeScoutArgs) : Except String Unit :=
  match a.Vulnerability with
  | none => .error "invalid job args"
  | some vargs =>
    let fetched :=
      if vargs.AffectedSoftwareIDs.length == 0 then w.hostsByCVE vargs.CVE
      else w.hostVulnSummariesBySoftwareIDs vargs.AffectedSoftwareIDs
    match fetched with
    | .error e => .error ("fetching hosts: " ++ e)
    | .ok hosts =>
      let tplArgs : freeScoutVulnTplArgs :=
        { NVDURL := nvdCVEURL
          FleetURL := w.FleetURL
          CVE := vargs.CVE
          Hosts := hosts
          EPSSProbability := vargs.EPSSProbability
          CVSSScore := vargs.CVSSScore
          CISAKnownExploit := vargs.CISAKnownExploit
          CVEPublished := vargs.CVEPublished }
      match w.createTemplatedConversation cli (renderVulnSummary tplArgs)
          (renderVulnDescription tplArgs) with
      | .error e => .error e
      | .ok _ => .ok ()

/-- `runFailingPolicy` (part_000 lines 307–326): build the template
arguments, render, create the conversation; logs are dropped. -/
def FreeScoutWorker.runFailingPolicy (w : FreeScoutWorker) (cli : FreeScout)
    (fp : failingPolicyArgs) : Except String Unit :=
  let tplArgs := newFailingPoliciesTplArgs w.FleetURL fp
  match w.createTemplatedConversation cli (renderFailingPolicySummary tplArgs)
      (renderFailingPolicyDescription tplArgs) with
  | .error e => .error e
  | .ok _ => .ok ()

/-- `Run` (part_000 lines 235–260): unmarshal the payload (the inbound
`Except` models `json.Unmarshal`'s outcome), resolve a client, succeed
silently when no integration is enabled, then dispatch on the integration
type. `integrationType` returns failing-policy exactly when the
failing-policy sub-payload is present, so the dispatch matches on it
directly; the switch's default branch is unreachable. -/
def FreeScoutWorker.Run (w : FreeScoutWorker) (cache : ClientsCache)
    (argsJSON : Except String freeScoutArgs) : Except String Unit × ClientsCache :=
  match argsJSON with
  | .error e => (.error ("unmarshal args: " ++ e), cache)
  | .ok args =>
    match w.getClient cache args with
    | (.error e, cache2, _) => (.error ("get FreeScout client: " ++ e), cache2)
    | (.ok none, cache2, _) =>
      -- queued while enabled, disabled since: success marks it processed
      (.ok (), cache2)
    | (.ok (some cli), cache2, _) =>
      match args.FailingPolicy with
      | none => (w.runVuln cli args, cache2)
      | some fp => (w.runFailingPolicy cli fp, cache2)

/-! ## Shared lemmas -/

/-- Deleting a key removes its binding. -/
theorem cacheLookup_cacheDelete (cache : ClientsCache) (key : String) :
    cacheLookup (cacheDelete cache key) key = none := by
  induction cache with
  | nil => rfl
  | cons p rest ih =>
    obtain ⟨k, v⟩ := p
    by_cases h : k = key
    · simpa [cacheDelete, h] using ih
    · simpa [cacheDelete, cacheLookup, h] using ih

/-- Storing a key binds it to the stored client. -/
theorem cacheLookup_cacheStore (cache : ClientsCache) (key : String) (cli : FreeScout) :
    cacheLookup (cacheStore cache key cli) key = some cli := by
  simp [cacheStore, cacheLookup]

/-- A successfully constructed client stores exactly the cleaned options. -/
theorem NewFreeScoutClient_ok_opts {o : FreeScoutOptions} {cli : FreeScout}
    (h : NewFreeScoutClient (some o) = .ok cli) :
    cli = ⟨cleanedFreeScoutOptions o⟩ := by
  simp only [NewFreeScoutClient] at h
  split_ifs at h with h1
  cases hp : parseURLE o.URL with
  | error e => simp [hp] at h
  | ok u =>
    simp only [hp] at h
    split_ifs at h with h2
    exact (Except.ok.inj h).symm

/-! ## Claims -/

/-- Claim C3: for every prior cache state, resolving with `none` options (no
enabled integration) evicts any cached entry for the key and returns no
client and no error, signalling a skip. Holds for any injected constructor. -/
theorem getClient_none_evicts (f : FreeScoutOptions → Except String FreeScout)
    (cache : ClientsCache) (key : String) :
    getClientCached f cache key none = (.ok none, cacheDelete cache key, 0)
      ∧ cacheLookup (cacheDelete cache key) key = none := by
  exact ⟨rfl, cacheLookup_cacheDelete cache key⟩

/-- Claim C10: when the constructor fails inside `getClient` (reached because
no cached client matches), the error is returned, the constructor was called
once, and the cache is returned unchanged — any previously cached, now-stale
client for the key remains. -/
theorem getClient_construct_error_leaves_cache
    (f : FreeScoutOptions → Except String FreeScout) (cache : ClientsCache)
    (key : String) (o : FreeScoutOptions) (e : String)
    (hmiss : ∀ cli, cacheLookup cache key = some cli → FreeScoutConfigMatches cli o = false)
    (herr : f o = .error e) :
    getClientCached f cache key (some o) = (.error e, cache, 1) := by
  unfold getClientCached
  cases hcl : cacheLookup cache key with
  | none => simp [herr]
  | some cli => simp [hmiss cli hcl, herr]

/-- Witness for C10 at a concrete failing constructor and a cache holding a
non-matching client under the key. -/
theorem getClient_construct_error_leaves_cache_witness :
    getClientCached (fun _ => .error "freescout construction failed")
        [("vuln:", ⟨⟨"https://old.example.com", "tok", 7, "it@example.com", 0⟩⟩)] "vuln:"
        (some ⟨"https://example.com", "tok", 7, "it@example.com", 0⟩)
      = (.error "freescout construction failed",
         [("vuln:", ⟨⟨"https://old.example.com", "tok", 7, "it@example.com", 0⟩⟩)], 1) :=
  getClient_construct_error_leaves_cache _ _ _ _ _ (by decide) rfl

/-- Claim C7: `NewFreeScoutClient` succeeds exactly when the options are
present and the URL is valid (nonempty, accepted by `url.Parse` with a
nonempty scheme and host); otherwise — missing options, empty URL, a URL
`url.Parse` rejects, or one parsing to an empty scheme or host — it
surfaces an error. -/
theorem NewFreeScoutClient_ok_iff (opts : Option FreeScoutOptions) :
    (∃ cli, NewFreeScoutClient opts = .ok cli) ↔
      ∃ o, opts = some o ∧ validFreeScoutURL o.URL := by
  cases opts with
  | none => simp [NewFreeScoutClient]
  | some o =>
    simp only [Option.some.injEq, exists_eq_left']
    constructor
    · rintro ⟨cli, hcli⟩
      unfold validFreeScoutURL
      refine ⟨?_, ?_⟩
      · intro hURL
        simp [NewFreeScoutClient, hURL] at hcli
      · simp only [NewFreeScoutClient] at hcli
        split_ifs at hcli with h1
        cases hp : parseURLE o.URL with
        | error e => simp [hp] at hcli
        | ok u =>
          simp only [hp] at hcli
          split_ifs at hcli with h2
          push_neg at h2
          exact ⟨u, rfl, h2.1, h2.2⟩
    · intro hvalid
      unfold validFreeScoutURL at hvalid
      obtain ⟨hne, u, hp, hs, hh⟩ := hvalid
      have hcond : ¬(u.scheme = "" ∨ u.host = "") := by
        rintro (h | h)
        · exact hs h
        · exact hh h
      refine ⟨⟨cleanedFreeScoutOptions o⟩, ?_⟩
      simp only [NewFreeScoutClient]
      rw [if_neg hne]
      simp only [hp]
      rw [if_neg hcond]

/-- Example options whose URL carries a trailing slash: valid for
construction, but not fixed by URL cleaning. -/
def exOptsSlash : FreeScoutOptions :=
  ⟨"https://example.com/", "tok", 7, "it@example.com", 0⟩

/-- `exOptsSlash` after cleaning: the same options with the slash trimmed. -/
def exOptsClean : FreeScoutOptions :=
  ⟨"https://example.com", "tok", 7, "it@example.com", 0⟩

/-- Claim C5 counterexample: `NewFreeScoutClient` succeeds on options whose
URL ends in `/`, but the built client does not match the very options it was
built from — the stored URL was right-trimmed while `FreeScoutConfigMatches`
compares full structural equality. -/
theorem configMatches_not_reflexive_counterexample :
    NewFreeScoutClient (some exOptsSlash) = .ok ⟨exOptsClean⟩
      ∧ FreeScoutConfigMatches ⟨exOptsClean⟩ exOptsSlash = false := by
  exact ⟨rfl, rfl⟩

/-- Claim C5 (amended): a built client matches exactly the cleaned form of
the options it was built from (URL right-trimmed of `/`), and no options
differing from that cleaned form in any field; in particular it matches the
original options precisely when their URL has no trailing slash. -/
theorem configMatches_cleaned (o o2 : FreeScoutOptions) (cli : FreeScout)
    (h : NewFreeScoutClient (some o) = .ok cli) :
    FreeScoutConfigMatches cli o2 = true ↔ o2 = cleanedFreeScoutOptions o := by
  have hcli := NewFreeScoutClient_ok_opts h
  subst hcli
  simp only [FreeScoutConfigMatches, beq_iff_eq]
  exact eq_comm

/-- Witness for C5 (amended) at slash-carrying options and their cleaned
form. -/
theorem configMatches_cleaned_witness :
    NewFreeScoutClient (some exOptsSlash) = .ok ⟨exOptsClean⟩
      ∧ (FreeScoutConfigMatches ⟨exOptsClean⟩ exOptsClean = true
          ↔ exOptsClean = cleanedFreeScoutOptions exOptsSlash) :=
  ⟨by decide, configMatches_cleaned exOptsSlash exOptsClean ⟨exOptsClean⟩ (by decide)⟩

/-- Claim C1 counterexample: with options whose URL ends in `/`, two
successive resolves with identical options each invoke the constructor —
the freshly built client never matches the incoming options, so the claimed
"at most one construction" bound fails (here the total is 2). -/
theorem getClient_reuse_counterexample :
    getClientCached newClientProd [] "vuln:" (some exOptsSlash)
        = (.ok (some ⟨exOptsClean⟩), [("vuln:", ⟨exOptsClean⟩)], 1)
      ∧ getClientCached newClientProd [("vuln:", ⟨exOptsClean⟩)] "vuln:" (some exOptsSlash)
        = (.ok (some ⟨exOptsClean⟩), [("vuln:", ⟨exOptsClean⟩)], 1) := by
  decide

/-- Claim C1 (amended): a cached client whose stored options structurally
equal the resolved options is returned unchanged with no constructor call
(for any injected constructor); and — with the production constructor — two
successive resolves with identical options invoke the constructor at most
once in total, provided the options are fixed by URL cleaning and the first
resolve succeeds. -/
theorem getClient_reuses_cached (cache : ClientsCache) (key : String) (o : FreeScoutOptions) :
    (∀ (f : FreeScoutOptions → Except String FreeScout) (cli : FreeScout),
        cacheLookup cache key = some cli → cli.opts = o →
        getClientCached f cache key (some o) = (.ok (some cli), cache, 0))
    ∧ (cleanedFreeScoutOptions o = o →
        (getClientCached newClientProd cache key (some o)).1.isOk = true →
        (getClientCached newClientProd cache key (some o)).2.2
          + (getClientCached newClientProd
              (getClientCached newClientProd cache key (some o)).2.1 key (some o)).2.2 ≤ 1) := by
  constructor
  · intro f cli hcl hopts
    unfold getClientCached
    simp [hcl, FreeScoutConfigMatches, hopts]
  · intro hclean hok
    cases hcl : cacheLookup cache key with
    | some cli =>
      by_cases hm : FreeScoutConfigMatches cli o = true
      · simp [getClientCached, hcl, hm]
      · rw [Bool.not_eq_true] at hm
        have hmatch : FreeScoutConfigMatches ⟨cleanedFreeScoutOptions o⟩ o = true := by
          simp [FreeScoutConfigMatches, hclean]
        cases hnew : newClientProd o with
        | error e =>
          simp [getClientCached, hcl, hm, hnew, Except.isOk, Except.toBool] at hok
        | ok built =>
          have hb := NewFreeScoutClient_ok_opts hnew
          subst hb
          simp [getClientCached, hcl, hm, hnew, cacheLookup_cacheStore, hmatch]
    | none =>
      have hmatch : FreeScoutConfigMatches ⟨cleanedFreeScoutOptions o⟩ o = true := by
        simp [FreeScoutConfigMatches, hclean]
      cases hnew : newClientProd o with
      | error e =>
        simp [getClientCached, hcl, hnew, Except.isOk, Except.toBool] at hok
      | ok built =>
        have hb := NewFreeScoutClient_ok_opts hnew
        subst hb
        simp [getClientCached, hcl, hnew, cacheLookup_cacheStore, hmatch]

/-- Witness for C1 (amended): the cache-hit arm at a cache holding a matching
client, and the at-most-one-construction arm starting from the empty cache. -/
theorem getClient_reuses_cached_witness :
    getClientCached newClientProd [("vuln:", ⟨exOptsClean⟩)] "vuln:" (some exOptsClean)
        = (.ok (some ⟨exOptsClean⟩), [("vuln:", ⟨exOptsClean⟩)], 0)
      ∧ (getClientCached newClientProd [] "vuln:" (some exOptsClean)).2.2
          + (getClientCached newClientProd
              (getClientCached newClientProd [] "vuln:" (some exOptsClean)).2.1 "vuln:"
              (some exOptsClean)).2.2 ≤ 1 :=
  ⟨(getClient_reuses_cached _ _ _).1 newClientProd ⟨exOptsClean⟩ (by decide) rfl,
   (getClient_reuses_cached [] "vuln:" exOptsClean).2 (by decide) (by decide)⟩

/-- Claim C2 counterexample: the cache holds the client built from options
whose URL carried a trailing slash; the newly resolved options differ from
those old options in the URL field, yet no client is constructed (the claim
demands exactly one) — the stored cleaned options happen to equal the new
options, so the old entry is reused as-is. -/
theorem getClient_rebuild_counterexample :
    exOptsSlash ≠ exOptsClean
      ∧ newClientProd exOptsSlash = .ok ⟨exOptsClean⟩
      ∧ getClientCached newClientProd [("vuln:", ⟨exOptsClean⟩)] "vuln:" (some exOptsClean)
        = (.ok (some ⟨exOptsClean⟩), [("vuln:", ⟨exOptsClean⟩)], 0) := by
  decide

/-- Claim C2 (amended): when the cached client for the key does not match the
newly resolved options (their stored, cleaned options differ from the new
options), exactly one client is constructed from the new options; on
success it is stored under the key — overwriting the prior entry — and
returned, and the entry now cached under the key is the new client, which
stores the cleaned form of the new options. -/
theorem getClient_rebuilds_on_change (cache : ClientsCache) (key : String)
    (oldCli newCli : FreeScout) (o : FreeScoutOptions)
    (hcl : cacheLookup cache key = some oldCli)
    (hmiss : FreeScoutConfigMatches oldCli o = false)
    (hnew : newClientProd o = .ok newCli) :
    getClientCached newClientProd cache key (some o)
        = (.ok (some newCli), cacheStore cache key newCli, 1)
      ∧ cacheLookup (cacheStore cache key newCli) key = some newCli
      ∧ newCli.opts = cleanedFreeScoutOptions o := by
  refine ⟨?_, cacheLookup_cacheStore cache key newCli, ?_⟩
  · simp [getClientCached, hcl, hmiss, hnew]
  · rw [NewFreeScoutClient_ok_opts hnew]

/-- Witness for C2 (amended): a cached client and new options that differ
from its stored options in the API token. -/
theorem getClient_rebuilds_on_change_witness :
    getClientCached newClientProd [("vuln:", ⟨exOptsClean⟩)] "vuln:"
        (some ⟨"https://example.com", "tok2", 7, "it@example.com", 0⟩)
        = (.ok (some ⟨⟨"https://example.com", "tok2", 7, "it@example.com", 0⟩⟩),
           [("vuln:", ⟨⟨"https://example.com", "tok2", 7, "it@example.com", 0⟩⟩)], 1)
      ∧ cacheLookup [("vuln:", ⟨⟨"https://example.com", "tok2", 7, "it@example.com", 0⟩⟩)] "vuln:"
        = some ⟨⟨"https://example.com", "tok2", 7, "it@example.com", 0⟩⟩
      ∧ (⟨⟨"https://example.com", "tok2", 7, "it@example.com", 0⟩⟩ : FreeScout).opts
        = cleanedFreeScoutOptions ⟨"https://example.com", "tok2", 7, "it@example.com", 0⟩ :=
  getClient_rebuilds_on_change _ _ ⟨exOptsClean⟩ _ _ (by decide) (by decide) (by decide)

/-- Search outcome with a first match: `findExistingConversationID` returns
its id and issued only the search request. -/
theorem findExisting_match (f : FreeScout) (server : FSServer) (decode : FSDecoder)
    (subject : String) (id : Int) (rest : List Int)
    (h2 : (server (.search (searchParamsFor f.opts subject))).status / 100 = 2)
    (hdec : decode (server (.search (searchParamsFor f.opts subject))).body = .ok (id :: rest)) :
    f.findExistingConversationID server decode subject
      = (.ok id, [.search (searchParamsFor f.opts subject)]) := by
  simp [FreeScout.findExistingConversationID, h2, hdec]

/-- Search outcome with no match: `findExistingConversationID` returns 0. -/
theorem findExisting_nomatch (f : FreeScout) (server : FSServer) (decode : FSDecoder)
    (subject : String)
    (h2 : (server (.search (searchParamsFor f.opts subject))).status / 100 = 2)
    (hdec : decode (server (.search (searchParamsFor f.opts subject))).body = .ok []) :
    f.findExistingConversationID server decode subject
      = (.ok 0, [.search (searchParamsFor f.opts subject)]) := by
  simp [FreeScout.findExistingConversationID, h2, hdec]

/-- Claim C6: the dedup search uses the exact subject, active status,
ascending update-time order and page size 1; when it yields a match (a
conversation with a positive id), a thread is appended to that conversation,
its id is returned, and no create-conversation request is issued; when it
yields no match, a create-conversation request carrying one initial thread
with the message is issued instead. -/
theorem createConversation_dedup (f : FreeScout) (server : FSServer) (decode : FSDecoder)
    (subject message : String) :
    ((searchParamsFor f.opts subject).subject = subject
        ∧ (searchParamsFor f.opts subject).status = "active"
        ∧ (searchParamsFor f.opts subject).sortField = "updatedAt"
        ∧ (searchParamsFor f.opts subject).sortOrder = "asc"
        ∧ (searchParamsFor f.opts subject).pageSize = "1")
    ∧ (∀ (id : Int) (rest : List Int),
        (server (.search (searchParamsFor f.opts subject))).status / 100 = 2 →
        decode (server (.search (searchParamsFor f.opts subject))).body = .ok (id :: rest) →
        0 < id →
        (server (.createThread id (threadPayloadFor f.opts message))).status / 100 = 2 →
        f.CreateFreeScoutConversation server decode subject message
            = (.ok id, [.search (searchParamsFor f.opts subject),
                        .createThread id (threadPayloadFor f.opts message)])
          ∧ ∀ r ∈ (f.CreateFreeScoutConversation server decode subject message).2,
              r.isCreateConv = false)
    ∧ ((server (.search (searchParamsFor f.opts subject))).status / 100 = 2 →
        decode (server (.search (searchParamsFor f.opts subject))).body = .ok [] →
        (f.CreateFreeScoutConversation server decode subject message).2
            = [.search (searchParamsFor f.opts subject),
               .createConv (convPayloadFor f.opts subject message)]
          ∧ (convPayloadFor f.opts subject message).threads
            = [{ text := message, typ := "customer",
                 customerEmail := some f.opts.CustomerEmail }]) := by
  refine ⟨⟨rfl, rfl, rfl, rfl, rfl⟩, ?_, ?_⟩
  · intro id rest h2 hdec hpos ht
    have hfind := findExisting_match f server decode subject id rest h2 hdec
    have hcreate : f.CreateFreeScoutConversation server decode subject message
        = (.ok id, [.search (searchParamsFor f.opts subject),
                    .createThread id (threadPayloadFor f.opts message)]) := by
      simp [FreeScout.CreateFreeScoutConversation, hfind, hpos,
        FreeScout.createFreeScoutThread, ht]
    refine ⟨hcreate, ?_⟩
    rw [hcreate]
    intro r hr
    simp only [List.mem_cons, List.not_mem_nil, or_false] at hr
    rcases hr with rfl | rfl <;> rfl
  · intro h2 hdec
    have hfind := findExisting_nomatch f server decode subject h2 hdec
    refine ⟨?_, rfl⟩
    simp only [FreeScout.CreateFreeScoutConversation, hfind]
    split_ifs with hpos h2c hrid
    · exact absurd hpos (by decide)
    · rfl
    · rfl
    · cases (server (.createConv (convPayloadFor f.opts subject message))).resourceID.toInt? <;> rfl

/-- A server whose search response matches (body decoded by
`exDecodeMatch`), accepts thread appends, and would reject a
create-conversation request. -/
def exServerMatch : FSServer := fun r =>
  match r with
  | .search _ => ⟨200, "one-match", ""⟩
  | .createThread _ _ => ⟨201, "", ""⟩
  | .createConv _ => ⟨500, "create must not be reached", ""⟩

/-- A decoder returning one conversation, id 42. -/
def exDecodeMatch : FSDecoder := fun _ => .ok [42]

/-- Witness for C6: with a search yielding conversation 42, the client
appends a thread to 42, returns 42, and issues no create request. -/
theorem createConversation_dedup_witness :
    (⟨exOptsClean⟩ : FreeScout).CreateFreeScoutConversation exServerMatch exDecodeMatch
        "subj" "msg"
        = (.ok 42, [.search (searchParamsFor exOptsClean "subj"),
                    .createThread 42 (threadPayloadFor exOptsClean "msg")])
      ∧ ∀ r ∈ ((⟨exOptsClean⟩ : FreeScout).CreateFreeScoutConversation exServerMatch
          exDecodeMatch "subj" "msg").2, r.isCreateConv = false :=
  (createConversation_dedup ⟨exOptsClean⟩ exServerMatch exDecodeMatch "subj" "msg").2.1
    42 [] rfl rfl (by decide) rfl

/-- The vulnerability host-list section ranges over exactly the first 50
hosts. -/
theorem renderVulnHostsSection_eq_take50 (u : String) (l : List HostVulnerabilitySummary) :
    renderVulnHostsSection u l
      = String.join ((l.take 50).map (renderVulnHostEntry u)) := by
  unfold renderVulnHostsSection
  by_cases h : l.length > 50
  · simp [h]
  · have hle : l.length ≤ 50 := Nat.le_of_not_lt h
    simp [h, List.take_length, List.take_of_length_le hle]

/-- Hosts beyond the first 50 do not influence the vulnerability host-list
section. -/
theorem renderVulnHostsSection_take50 (u : String) (l : List HostVulnerabilitySummary) :
    renderVulnHostsSection u l = renderVulnHostsSection u (l.take 50) := by
  rw [renderVulnHostsSection_eq_take50, renderVulnHostsSection_eq_take50, List.take_take]
  simp

/-- The failing-policy host-list section ranges over exactly the first 50
hosts. -/
theorem renderPolicyHostsSection_eq_take50 (u : String) (l : List PolicyTplHost) :
    renderPolicyHostsSection u l
      = String.join ((l.take 50).map fun h =>
          "\n* [" ++ h.DisplayName ++ "](" ++ u ++ "/hosts/" ++ toString h.ID ++ ")\n") := by
  unfold renderPolicyHostsSection
  by_cases h : l.length > 50
  · simp [h]
  · have hle : l.length ≤ 50 := Nat.le_of_not_lt h
    simp [h, List.take_length, List.take_of_length_le hle]

/-- Hosts beyond the first 50 do not influence the failing-policy host-list
section. -/
theorem renderPolicyHostsSection_take50 (u : String) (l : List PolicyTplHost) :
    renderPolicyHostsSection u l = renderPolicyHostsSection u (l.take 50) := by
  rw [renderPolicyHostsSection_eq_take50, renderPolicyHostsSection_eq_take50, List.take_take]
  simp

/-- Claim C9: both rendered bodies depend only on the first 50 hosts of the
list — truncating the host list to 50 entries leaves them unchanged — while
the summary reports the full host count: with 60 hosts the vulnerability
summary reads `Vulnerability {CVE} detected on 60 host(s)` and the body's
host section holds exactly 50 entries. -/
theorem body_caps_hosts_at_50 :
    (∀ a : freeScoutVulnTplArgs,
        renderVulnDescription a
          = renderVulnDescription { a with Hosts := a.Hosts.take 50 })
    ∧ (∀ a : failingPoliciesTplArgs,
        renderFailingPolicyDescription a
          = renderFailingPolicyDescription { a with Hosts := a.Hosts.take 50 })
    ∧ (∀ a : freeScoutVulnTplArgs, a.Hosts.length = 60 →
        renderVulnSummary a = "Vulnerability " ++ a.CVE ++ " detected on 60 host(s)"
          ∧ (a.Hosts.take 50).length = 50
          ∧ renderVulnDescription a
            = renderVulnDescription { a with Hosts := a.Hosts.take 50 }) := by
  have hvuln : ∀ a : freeScoutVulnTplArgs,
      renderVulnDescription a = renderVulnDescription { a with Hosts := a.Hosts.take 50 } := by
    intro a
    unfold renderVulnDescription
    rw [renderVulnHostsSection_take50]
  refine ⟨hvuln, ?_, ?_⟩
  · intro a
    unfold renderFailingPolicyDescription
    rw [renderPolicyHostsSection_take50]
  · intro a h
    refine ⟨?_, ?_, hvuln a⟩
    · unfold renderVulnSummary
      rw [h]
      simp only [String.append_assoc]
      exact congrArg (fun s => "Vulnerability " ++ (a.CVE ++ s)) (by decide)
    · simp [h]

/-- Concrete template arguments with 60 identical affected hosts. -/
def exVulnArgs60 : freeScoutVulnTplArgs :=
  { NVDURL := nvdCVEURL
    FleetURL := "https://fleet.example.com"
    CVE := "CVE-2024-0001"
    Hosts := List.replicate 60 ⟨1, "host1", []⟩
    EPSSProbability := none
    CVSSScore := none
    CISAKnownExploit := none
    CVEPublished := none }

/-- Witness for C9 at 60 affected hosts. -/
theorem body_caps_hosts_at_50_witness :
    renderVulnSummary exVulnArgs60
        = "Vulnerability " ++ exVulnArgs60.CVE ++ " detected on 60 host(s)"
      ∧ (exVulnArgs60.Hosts.take 50).length = 50
      ∧ renderVulnDescription exVulnArgs60
        = renderVulnDescription { exVulnArgs60 with Hosts := exVulnArgs60.Hosts.take 50 } :=
  body_caps_hosts_at_50.2.2 exVulnArgs60 rfl

/-- A worker whose configuration resolution reports the integration
disabled. -/
def exWorkerDisabled : FreeScoutWorker :=
  { FleetURL := "https://fleet.example.com"
    NewClientFunc := newClientProd
    resolveConfig := fun _ _ => .ok none
    hostsByCVE := fun _ => .ok []
    hostVulnSummariesBySoftwareIDs := fun _ => .ok []
    server := exServerMatch
    decodeConversations := exDecodeMatch }

/-- A worker whose configuration resolution yields `exOptsClean` and whose
constructor is the production one. -/
def exWorkerEnabled : FreeScoutWorker :=
  { FleetURL := "https://fleet.example.com"
    NewClientFunc := newClientProd
    resolveConfig := fun _ _ => .ok (some exOptsClean)
    hostsByCVE := fun _ => .ok []
    hostVulnSummariesBySoftwareIDs := fun _ => .ok []
    server := exServerMatch
    decodeConversations := exDecodeMatch }

/-- Claim C8 counterexample: a payload with neither sub-payload present is
not rejected when the integration has been disabled — `Run` returns success
before ever inspecting the sub-payloads. -/
theorem run_missing_payload_counterexample :
    exWorkerDisabled.Run [] (.ok ⟨none, none⟩) = (.ok (), []) := by
  rfl

/-- Claim C8 (amended): for a payload with neither the vulnerability nor the
failing-policy sub-payload present, `Run` surfaces the input error
`invalid job args` whenever a client is resolved for the job; when no
client is resolved (the integration was disabled after enqueue), `Run`
instead returns success without inspecting the payload. -/
theorem run_missing_payload (w : FreeScoutWorker) (cache : ClientsCache) :
    (∀ (cli : FreeScout) (cache2 : ClientsCache) (n : Nat),
        w.getClient cache ⟨none, none⟩ = (.ok (some cli), cache2, n) →
        w.Run cache (.ok ⟨none, none⟩) = (.error "invalid job args", cache2))
    ∧ (∀ (cache2 : ClientsCache) (n : Nat),
        w.getClient cache ⟨none, none⟩ = (.ok none, cache2, n) →
        w.Run cache (.ok ⟨none, none⟩) = (.ok (), cache2)) := by
  constructor
  · intro cli cache2 n h
    simp [FreeScoutWorker.Run, h, FreeScoutWorker.runVuln]
  · intro cache2 n h
    simp [FreeScoutWorker.Run, h]

/-- Witness for C8 (amended): both arms at concrete workers — enabled
configuration rejects the empty payload, disabled configuration accepts
it. -/
theorem run_missing_payload_witness :
    exWorkerEnabled.Run [] (.ok ⟨none, none⟩)
        = (.error "invalid job args", [("vuln:", ⟨exOptsClean⟩)])
      ∧ exWorkerDisabled.Run [] (.ok ⟨none, none⟩) = (.ok (), []) :=
  ⟨(run_missing_payload exWorkerEnabled []).1 ⟨exOptsClean⟩ [("vuln:", ⟨exOptsClean⟩)] 1
      (by decide),
   (run_missing_payload exWorkerDisabled []).2 [] 0 (by decide)⟩

end FleetX
